import Mathlib

/-!
Verification of the airgradient firmware acquisition-and-health core.

A shallow embedding, in Lean 4, of the acquisition-and-health subsystem of
the `airgradient-rs` firmware: the three sensor protocol drivers
(`src/sensors/pms5003t.rs`, `src/sensors/s8.rs`, `src/sensors/sgp41.rs`),
the sensor manager (`src/sensors/sensor_manager.rs`), and the watchdog
(`src/watchdog.rs`).  Machine integers are modelled as `Nat` (with explicit
`% 2^w` where the Rust code wraps), `f32` quantities as `ℚ`, fallible
operations as `Except`, and byte transports as explicit `List ℕ` streams
or oracles.  Each definition mirrors one Rust item and is named after it.
-/

namespace AirGradient

/-- A value is a byte (fits in a Rust `u8`). -/
def IsByte (b : ℕ) : Prop := b < 256

/-- All elements of a list are bytes. -/
def BytesOf (l : List ℕ) : Prop := ∀ b ∈ l, b < 256

/-- `u16::from_be_bytes([hi, lo])` for byte values: big-endian 16-bit decode. -/
def u16FromBe (hi lo : ℕ) : ℕ := 256 * hi + lo

/-- `i16::from_be_bytes([hi, lo])` for byte values: big-endian signed 16-bit
decode (two's complement). -/
def i16FromBe (hi lo : ℕ) : ℤ :=
  let v : ℤ := 256 * hi + lo
  if v < 32768 then v else v - 65536

/-! ## SGP41 gas driver (`src/sensors/sgp41.rs`)

Humidity/temperature compensation-tick conversions (`humidity_to_ticks`,
`temperature_to_ticks`), their defaults, and the `measure` guard.  The Rust
code computes the conversions in `f32`; we model them over `ℚ`.  Every
intermediate value involved in the claims (`h * 65535 / 100` for the clamp
boundaries and the concrete inputs appearing below) is exactly representable
in `f32`, so the rational model agrees with the floating-point code there.
`as u16` on a non-negative in-range float truncates toward zero, i.e. is
`Int.floor` followed by `Int.toNat`. -/

/-- `DEFAULT_RH_TICKS: u16 = 0x8000` — default compensation word meant for
50 % RH (sgp41.rs line 12). -/
def DEFAULT_RH_TICKS : ℕ := 0x8000

/-- `DEFAULT_TEMP_TICKS: u16 = 0x6666` — default compensation word meant for
25 °C (sgp41.rs line 13). -/
def DEFAULT_TEMP_TICKS : ℕ := 0x6666

/-- Rust `f32::clamp(lo, hi)` over `ℚ`. -/
def clampQ (x lo hi : ℚ) : ℚ := max lo (min x hi)

/-- `Sgp41::humidity_to_ticks`: clamp `%RH` to `[0, 100]`, scale by
`65535 / 100`, truncate to `u16` (sgp41.rs lines 236–239). -/
def humidity_to_ticks (humidity : ℚ) : ℕ :=
  (Int.floor (clampQ humidity 0 100 * 65535 / 100)).toNat

/-- `Sgp41::temperature_to_ticks`: clamp `°C` to `[-45, 130]`, shift by 45,
scale by `65535 / 175`, truncate to `u16` (sgp41.rs lines 243–246). -/
def temperature_to_ticks (temp : ℚ) : ℕ :=
  (Int.floor ((clampQ temp (-45) 130 + 45) * 65535 / 175)).toNat

/-- The compensation words `measure_internal` sends, from its two `Option`
arguments (sgp41.rs lines 187–193): a present input is converted, a missing
one falls back to the fixed default tick constant. -/
def compTicks (humidity temp : Option ℚ) : ℕ × ℕ :=
  ((humidity.map humidity_to_ticks).getD DEFAULT_RH_TICKS,
   (temp.map temperature_to_ticks).getD DEFAULT_TEMP_TICKS)

/-- `SGP41_ADDRESS: u8 = 0x59` (sgp41.rs line 4). -/
def SGP41_ADDRESS : ℕ := 0x59

/-- `CMD_MEASURE_RAW: [u8; 2] = [0x26, 0x19]` (sgp41.rs line 7). -/
def CMD_MEASURE_RAW : List ℕ := [0x26, 0x19]

/-- `RESPONSE_SIZE: usize = 6` (sgp41.rs line 21). -/
def RESPONSE_SIZE : ℕ := 6

/-- One round of the CRC-8 inner loop (sgp41.rs lines 262–268): shift left by
one with `u8` wrap-around, xor the polynomial `0x31` when the top bit was
set. -/
def crc8Step (crc : ℕ) : ℕ :=
  if crc &&& 0x80 ≠ 0 then ((crc * 2) % 256) ^^^ 0x31 else (crc * 2) % 256

/-- Absorb one byte into the CRC-8 state: xor it in, then run eight rounds
(sgp41.rs lines 260–269). -/
def crc8Byte (crc b : ℕ) : ℕ := crc8Step^[8] (crc ^^^ (b % 256))

/-- `crc8`: polynomial `0x31`, initial value `0xFF`, MSB-first
(sgp41.rs lines 258–271). -/
def crc8 (data : List ℕ) : ℕ := data.foldl crc8Byte 0xFF

/-- `Sgp41Error` (sgp41.rs lines 35–41). -/
inductive Sgp41Error
  | I2cError
  | CrcError
  | SelfTestFailed (code : ℕ)
  | NotInitialized
  deriving DecidableEq, Repr

/-- The SGP41 driver state that `measure` consults and `init`/`heater_off`
mutate: just the `initialized` flag (sgp41.rs line 30).  The I2C handle is
modelled as an external oracle, the gas-index algorithm state is owned by an
external crate and is irrelevant to the claims. -/
structure Sgp41 where
  initialized : Bool
  deriving DecidableEq, Repr

/-- `Sgp41::is_initialized` (sgp41.rs lines 129–131). -/
def Sgp41.is_initialized (st : Sgp41) : Bool := st.initialized

/-- One I2C bus transaction, recorded so theorems can speak about which
hardware accesses a call performs. -/
inductive I2cOp
  | write (addr : ℕ) (bytes : List ℕ)
  | read (addr : ℕ) (len : ℕ)
  deriving DecidableEq, Repr

/-- Oracle for the I2C bus during one measurement: whether the write and the
read succeed, and the six bytes the read returns. -/
structure I2cOracle where
  writeOk : Bool
  readOk : Bool
  readBuf : List ℕ
  deriving DecidableEq, Repr

/-- `u16::to_be_bytes`. -/
def u16ToBeBytes (x : ℕ) : List ℕ := [x / 256 % 256, x % 256]

/-- `Sgp41::measure_internal` (sgp41.rs lines 182–232): build the command
buffer from the compensation ticks (`compTicks`, lines 187–193) with a CRC-8
per word, write it, read six bytes back, validate both word CRCs, decode the
two big-endian raw words.  Returns the result together with the list of I2C
transactions performed. -/
def measure_internal (humidity temp : Option ℚ) (orc : I2cOracle) :
    Except Sgp41Error (ℕ × ℕ) × List I2cOp :=
  let ticks := compTicks humidity temp
  let rh_bytes := u16ToBeBytes ticks.1
  let rh_crc := crc8 rh_bytes
  let t_bytes := u16ToBeBytes ticks.2
  let t_crc := crc8 t_bytes
  let buffer := CMD_MEASURE_RAW ++ rh_bytes ++ [rh_crc] ++ t_bytes ++ [t_crc]
  let wOp := I2cOp.write SGP41_ADDRESS buffer
  if !orc.writeOk then (.error .I2cError, [wOp])
  else
    let rOp := I2cOp.read SGP41_ADDRESS RESPONSE_SIZE
    if !orc.readOk then (.error .I2cError, [wOp, rOp])
    else
      let buf := orc.readBuf
      if crc8 (buf.take 2) ≠ buf.getD 2 0 then (.error .CrcError, [wOp, rOp])
      else if crc8 ((buf.drop 3).take 2) ≠ buf.getD 5 0 then
        (.error .CrcError, [wOp, rOp])
      else
        (.ok (u16FromBe (buf.getD 0 0) (buf.getD 1 0),
              u16FromBe (buf.getD 3 0) (buf.getD 4 0)), [wOp, rOp])

/-- `Sgp41::measure` (sgp41.rs lines 145–155): reject with `NotInitialized`
when the driver is not initialized, otherwise defer to `measure_internal`.
Returns the result, the I2C transactions performed, and the post-call driver
state. -/
def Sgp41.measure (st : Sgp41) (humidity temp : Option ℚ) (orc : I2cOracle) :
    Except Sgp41Error (ℕ × ℕ) × List I2cOp × Sgp41 :=
  if !st.initialized then (.error .NotInitialized, [], st)
  else
    let r := measure_internal humidity temp orc
    (r.1, r.2, st)

/-! ## PMS5003T particulate-matter driver (`src/sensors/pms5003t.rs`)

The UART is modelled as a finite byte stream (`List ℕ`): a byte read
consumes the head, `read_exact` consumes the requested amount; an exhausted
stream is a transport failure (`PmsError.Read`), mirroring
`embedded_io_async::ReadExactError::UnexpectedEof`, with everything the
failed read pulled off the wire consumed.  Each operation returns its result
together with the remaining stream, because bytes consumed by a failed frame
attempt are gone from the UART: the resynchronization loop continues from
exactly where the failure left off. -/

/-- `FRAME_START_1: u8 = 0x42` (pms5003t.rs line 3). -/
def FRAME_START_1 : ℕ := 0x42

/-- `FRAME_START_2: u8 = 0x4D` (pms5003t.rs line 4). -/
def FRAME_START_2 : ℕ := 0x4D

/-- `EXPECTED_FRAME_LEN: u16 = 28` (pms5003t.rs line 5). -/
def EXPECTED_FRAME_LEN : ℕ := 28

/-- `DATA_PAYLOAD_LEN: usize = 26` (pms5003t.rs line 6). -/
def DATA_PAYLOAD_LEN : ℕ := 26

/-- `MAX_SYNC_ATTEMPTS: u32 = 2048` (pms5003t.rs line 7). -/
def MAX_SYNC_ATTEMPTS : ℕ := 2048

/-- `PmsError` (pms5003t.rs lines 9–15). -/
inductive PmsError
  | Read
  | Checksum
  | FrameLen
  | MaxAttemptsExceeded
  deriving DecidableEq, Repr

/-- `PmsData` (pms5003t.rs lines 17–28); the `f32` temperature and humidity
are modelled as `ℚ`. -/
structure PmsData where
  pm1_ae : ℕ
  pm25_ae : ℕ
  pm10_ae : ℕ
  pm03_count : ℕ
  pm05_count : ℕ
  pm10_count : ℕ
  pm25_count : ℕ
  temp : ℚ
  humidity : ℚ
  deriving DecidableEq, Repr

/-- `Pms5003t::verify_checksum` (pms5003t.rs lines 78–89): the two sync
bytes, both length bytes and the 26 payload bytes are summed with `u16`
wrap-around and compared against the big-endian trailing checksum field. -/
def verify_checksum (len_buf data_buf : List ℕ) : Bool :=
  let sum := (FRAME_START_1 + FRAME_START_2 + len_buf.getD 0 0 + len_buf.getD 1 0
      + (data_buf.take DATA_PAYLOAD_LEN).sum) % 65536
  sum == u16FromBe (data_buf.getD 26 0) (data_buf.getD 27 0)

/-- `Pms5003t::parse_frame` (pms5003t.rs lines 91–114): big-endian `u16`
fields at fixed payload offsets; temperature is a signed raw value divided
by 10, humidity an unsigned raw value divided by 10. -/
def parse_frame (d : List ℕ) : PmsData :=
  { pm1_ae := u16FromBe (d.getD 6 0) (d.getD 7 0)
    pm25_ae := u16FromBe (d.getD 8 0) (d.getD 9 0)
    pm10_ae := u16FromBe (d.getD 10 0) (d.getD 11 0)
    pm03_count := u16FromBe (d.getD 12 0) (d.getD 13 0)
    pm05_count := u16FromBe (d.getD 14 0) (d.getD 15 0)
    pm10_count := u16FromBe (d.getD 16 0) (d.getD 17 0)
    pm25_count := u16FromBe (d.getD 18 0) (d.getD 19 0)
    temp := (i16FromBe (d.getD 20 0) (d.getD 21 0) : ℚ) / 10
    humidity := (u16FromBe (d.getD 22 0) (d.getD 23 0) : ℚ) / 10 }

/-- `Pms5003t::try_read_frame` (pms5003t.rs lines 48–76): one frame attempt.
Read one byte and require `0x42`, read one byte and require `0x4D`, read the
two-byte big-endian declared length and require 28, read the 28 remaining
bytes (26 payload + 2 checksum), verify the checksum, parse.  On any failure
the attempt stops there; the bytes it consumed stay consumed. -/
def try_read_frame : List ℕ → Except PmsError PmsData × List ℕ
  | [] => (.error .Read, [])
  | b1 :: s1 =>
    if b1 ≠ FRAME_START_1 then (.error .Read, s1)
    else match s1 with
      | [] => (.error .Read, [])
      | b2 :: s2 =>
        if b2 ≠ FRAME_START_2 then (.error .Read, s2)
        else match s2 with
          | l1 :: l2 :: s3 =>
            if u16FromBe l1 l2 ≠ EXPECTED_FRAME_LEN then (.error .FrameLen, s3)
            else if s3.length < 28 then (.error .Read, [])
            else
              let data_buf := s3.take 28
              let s4 := s3.drop 28
              if !verify_checksum [l1, l2] data_buf then (.error .Checksum, s4)
              else (.ok (parse_frame data_buf), s4)
          | _ => (.error .Read, [])

/-- The attempt loop of `Pms5003t::read` (pms5003t.rs lines 39–46), with the
remaining attempt budget explicit: try a frame; on success return it, on
failure retry from the stream position where the failed attempt stopped;
with the budget exhausted return `MaxAttemptsExceeded`. -/
def readLoop : ℕ → List ℕ → Except PmsError PmsData × List ℕ
  | 0, s => (.error .MaxAttemptsExceeded, s)
  | n + 1, s =>
    match try_read_frame s with
    | (.ok d, s') => (.ok d, s')
    | (.error _, s') => readLoop n s'

/-- `Pms5003t::read` (pms5003t.rs lines 39–46): up to `MAX_SYNC_ATTEMPTS`
frame attempts. -/
def Pms5003t.read (s : List ℕ) : Except PmsError PmsData × List ℕ :=
  readLoop MAX_SYNC_ATTEMPTS s

/-! ## S8 CO2 driver (`src/sensors/s8.rs`) -/

/-- `S8Error` (s8.rs lines 3–9). -/
inductive S8Error
  | ReadError
  | WriteError
  | ChecksumError
  | InvalidHeader
  deriving DecidableEq, Repr

/-- `MODBUS_ADDR_ANY: u8 = 0xFE` (s8.rs line 16). -/
def MODBUS_ADDR_ANY : ℕ := 0xFE

/-- `MODBUS_FUNC_READ_INPUT: u8 = 0x04` (s8.rs line 17). -/
def MODBUS_FUNC_READ_INPUT : ℕ := 0x04

/-- `RESPONSE_BYTE_COUNT: u8 = 0x02` (s8.rs line 22). -/
def RESPONSE_BYTE_COUNT : ℕ := 0x02

/-- One round of the Modbus CRC-16 inner loop (s8.rs lines 92–97): shift
right by one, xor the polynomial `0xA001` when the low bit was set. -/
def crc16Step (crc : ℕ) : ℕ :=
  if crc &&& 0x0001 ≠ 0 then (crc / 2) ^^^ 0xA001 else crc / 2

/-- Absorb one byte into the CRC-16 state: xor it in, then run eight rounds
(s8.rs lines 90–99). -/
def crc16Byte (crc b : ℕ) : ℕ := crc16Step^[8] (crc ^^^ (b % 256))

/-- `crc16_modbus`: initial value `0xFFFF`, polynomial `0xA001`, LSB-first
(s8.rs lines 88–101). -/
def crc16_modbus (data : List ℕ) : ℕ := data.foldl crc16Byte 0xFFFF

/-- `validate_response` (s8.rs lines 67–86): the three header bytes must
equal the expected constants, else `InvalidHeader`; then the CRC-16 computed
over the first five bytes must equal the received CRC reconstructed
high-byte-from-`buf[6]`, low-byte-from-`buf[5]`, else `ChecksumError`. -/
def validate_response (buf : List ℕ) : Except S8Error Unit :=
  if buf.getD 0 0 ≠ MODBUS_ADDR_ANY ∨ buf.getD 1 0 ≠ MODBUS_FUNC_READ_INPUT
      ∨ buf.getD 2 0 ≠ RESPONSE_BYTE_COUNT then
    .error .InvalidHeader
  else
    let received_crc := (buf.getD 6 0) <<< 8 ||| buf.getD 5 0
    let calculated_crc := crc16_modbus (buf.take 5)
    if calculated_crc ≠ received_crc then .error .ChecksumError
    else .ok ()

/-- The response-processing tail of `S8::get_co2` (s8.rs lines 60–63), on the
7-byte response buffer: validate, then decode the big-endian CO2 word from
bytes 3 and 4 (0-indexed). -/
def getCo2Resp (buf : List ℕ) : Except S8Error ℕ :=
  match validate_response buf with
  | .error e => .error e
  | .ok _ => .ok ((buf.getD 3 0) <<< 8 ||| buf.getD 4 0)

/-! ## Sensor manager (`src/sensors/sensor_manager.rs`)

`SensorManager::read_all` sequences the three line reads.  The embedding
takes the outcome of each line as a parameter: the PM result, the gas
measurement as a function of the two `Option` compensation arguments the
manager passes it (so theorems can observe exactly which arguments the call
receives), the CO2 result, the gas driver's `is_initialized` flag and the
cycle-completion time `now` (`Instant::now()` at line 181). -/

/-- `SensorErrors` (sensor_manager.rs lines 54–59): at most one error per
line. -/
structure SensorErrors where
  pms : Option PmsError
  sgp : Option Sgp41Error
  s8 : Option S8Error
  deriving DecidableEq, Repr

/-- `SensorData` (sensor_manager.rs lines 13–30); `f32` fields as `ℚ`,
`Instant` as `ℕ`. -/
structure SensorData where
  pm1 : ℕ
  pm25 : ℕ
  pm10 : ℕ
  pm03_count : ℕ
  pm05_count : ℕ
  pm10_count : ℕ
  pm25_count : ℕ
  co2 : ℕ
  voc : ℤ
  nox : ℤ
  temp : ℚ
  humidity : ℚ
  initialized : Bool
  errors : Option SensorErrors
  last_updated : ℕ
  deriving DecidableEq, Repr

/-- `SensorData::default` (sensor_manager.rs lines 32–52): all numeric
fields zero, not initialized, no errors; `last_updated` is the creation
instant, passed explicitly. -/
def SensorData.default (now : ℕ) : SensorData :=
  { pm1 := 0, pm25 := 0, pm10 := 0
    pm03_count := 0, pm05_count := 0, pm10_count := 0, pm25_count := 0
    co2 := 0, voc := 0, nox := 0, temp := 0, humidity := 0
    initialized := false, errors := none, last_updated := now }

/-- The compensation arguments the manager passes to
`Sgp41::measure_indices` (sensor_manager.rs lines 150–155): always
`(Some(data.humidity), Some(data.temp))`, where `data` holds the PM line's
values on success and `SensorData::default`'s `0.0` values on failure. -/
def sgpInputs (pmsRes : Except PmsError PmsData) : Option ℚ × Option ℚ :=
  match pmsRes with
  | .ok p => (some p.humidity, some p.temp)
  | .error _ => (some 0, some 0)

/-- `SensorManager::read_all` (sensor_manager.rs lines 122–184): start from
a default record; fill the PM fields or record the PM error; run the gas
measurement with `Some(data.humidity)`/`Some(data.temp)` and fill VOC/NOx or
record the gas error; fill CO2 or record the CO2 error; attach the error
record only if some line failed; stamp `initialized` from the gas driver and
`last_updated` with the completion time. -/
def read_all (pmsRes : Except PmsError PmsData)
    (sgpCall : Option ℚ → Option ℚ → Except Sgp41Error (ℤ × ℤ))
    (s8Res : Except S8Error ℕ) (sgpInitialized : Bool) (now : ℕ) :
    SensorData :=
  let data := SensorData.default 0
  let error_flags : SensorErrors := ⟨none, none, none⟩
  let step1 :=
    match pmsRes with
    | .ok p =>
        ({ data with
            pm1 := p.pm1_ae, pm25 := p.pm25_ae, pm10 := p.pm10_ae
            pm03_count := p.pm03_count, pm05_count := p.pm05_count
            pm10_count := p.pm10_count, pm25_count := p.pm25_count
            temp := p.temp, humidity := p.humidity },
         error_flags, false)
    | .error e => (data, { error_flags with pms := some e }, true)
  let data := step1.1
  let step2 :=
    match sgpCall (some data.humidity) (some data.temp) with
    | .ok (voc_idx, nox_idx) =>
        ({ data with voc := voc_idx, nox := nox_idx }, step1.2.1, step1.2.2)
    | .error e => (data, { step1.2.1 with sgp := some e }, true)
  let data := step2.1
  let step3 :=
    match s8Res with
    | .ok co2 => ({ data with co2 := co2 }, step2.2.1, step2.2.2)
    | .error e => (data, { step2.2.1 with s8 := some e }, true)
  let data := step3.1
  let data := if step3.2.2 then { data with errors := some step3.2.1 } else data
  { data with initialized := sgpInitialized, last_updated := now }

/-! ## Watchdog monitor (`src/watchdog.rs`)

One tick of the `watchdog_task` loop body (watchdog.rs lines 24–69) as a
pure function.  Time is `ℕ`; `Instant::duration_since` is truncated
subtraction.  The GPIO activity of the tick is returned as a list of pin
events, so "high for exactly the pulse duration, then low" is the literal
trace.  The per-tick state is `last_wifi_ok`. -/

/-- The watchdog configuration (config.rs `WatchdogConfig`): the three
timeouts, in the same time unit as the clock, and the kick pulse duration in
milliseconds. -/
structure WatchdogConfig where
  wifi_timeout : ℕ
  sensor_timeout : ℕ
  metric_scrape_timeout : ℕ
  kick_duration_ms : ℕ
  deriving DecidableEq, Repr

/-- The inputs one watchdog tick reads: the network stack's link/config
state, the current instant, the snapshot's `last_updated`, and the metric
exporter's last-scrape timestamp. -/
structure WdInput where
  link_up : Bool
  config_up : Bool
  now : ℕ
  sensor_last_updated : ℕ
  last_scrape : ℕ
  deriving DecidableEq, Repr

/-- GPIO events on the watchdog kick pin. -/
inductive PinEvent
  | setHigh
  | delayMs (ms : ℕ)
  | setLow
  deriving DecidableEq, Repr

/-- The sensor-staleness test of the tick (watchdog.rs lines 40–47): the
snapshot is stale when its age exceeds the sensor timeout. -/
def sensorsStale (cfg : WatchdogConfig) (now sensor_last_updated : ℕ) : Bool :=
  now - sensor_last_updated > cfg.sensor_timeout

/-- One tick of `watchdog_task` (watchdog.rs lines 24–69).  Input: the
configuration, the carried `last_wifi_ok` state, and the tick's inputs.
Output: the new `last_wifi_ok`, the `healthy` flag, and the pin-event trace
(the kick pulse, or nothing). -/
def watchdogTick (cfg : WatchdogConfig) (last_wifi_ok : ℕ) (inp : WdInput) :
    ℕ × Bool × List PinEvent :=
  let wifiUp := inp.link_up && inp.config_up
  let last_wifi_ok' := if wifiUp then inp.now else last_wifi_ok
  let healthy1 :=
    if wifiUp then true
    else !(inp.now - last_wifi_ok > cfg.wifi_timeout)
  let healthy2 := healthy1 && !(sensorsStale cfg inp.now inp.sensor_last_updated)
  let scrape_age := inp.now - inp.last_scrape
  let healthy := healthy2 && !(scrape_age > cfg.metric_scrape_timeout)
  let trace :=
    if healthy then [PinEvent.setHigh, PinEvent.delayMs cfg.kick_duration_ms, PinEvent.setLow]
    else []
  (last_wifi_ok', healthy, trace)

/-! ## Snapshot store under cooperative concurrency
(`SharedSensorData`, sensor_manager.rs lines 61–81)

`SharedSensorData::update` replaces the whole snapshot while holding the
store's mutex; readers copy the snapshot out while holding the same mutex.
To give the atomicity claim content, the embedding refines the whole-value
replace and the copy-out to field-by-field accesses on an `n`-field slot,
interleaved arbitrarily with one writer task and one reader task — except
that, as in the code, a task touches the slot only while it holds the lock.
Each field of the slot carries the number of the write cycle that produced
it, so "a mixture of fields from two different cycles" is literally a
non-constant slot or copy. -/

/-- The two tasks contending for the snapshot store lock. -/
inductive Tid
  | writer
  | reader
  deriving DecidableEq, Repr

/-- Global state of the store system: the lock owner, the `n`-field slot
(each field stamped with the cycle that wrote it), the writer's current
cycle number and position within its replace, and the reader's position and
copied-out fields. -/
structure StoreState (n : ℕ) where
  lock : Option Tid
  slot : Fin n → ℕ
  wCycle : ℕ
  wPos : ℕ
  rPos : ℕ
  rCopy : Fin n → Option ℕ

/-- Initial store state: `SensorData::default` in the slot (cycle 0), lock
free, writer about to produce cycle 1. -/
def StoreState.init (n : ℕ) : StoreState n :=
  { lock := none, slot := fun _ => 0, wCycle := 1, wPos := 0
    rPos := 0, rCopy := fun _ => none }

/-- One interleaving step of the writer (`SharedSensorData::update`) or a
reader (copy-out under `lock`).  Acquiring requires the lock to be free;
every slot access requires holding it.  The writer's release is the end of
one whole-value replace; the reader's release is the end of one whole
copy-out. -/
inductive StoreStep (n : ℕ) : StoreState n → StoreState n → Prop
  | wAcquire (s : StoreState n) (h : s.lock = none) :
      StoreStep n s { s with lock := some Tid.writer, wPos := 0 }
  | wWrite (s : StoreState n) (i : Fin n) (h : s.lock = some Tid.writer)
      (hp : s.wPos = i.val) :
      StoreStep n s
        { s with slot := Function.update s.slot i s.wCycle, wPos := i.val + 1 }
  | wRelease (s : StoreState n) (h : s.lock = some Tid.writer)
      (hp : s.wPos = n) :
      StoreStep n s { s with lock := none, wCycle := s.wCycle + 1 }
  | rAcquire (s : StoreState n) (h : s.lock = none) :
      StoreStep n s
        { s with lock := some Tid.reader, rPos := 0, rCopy := fun _ => none }
  | rRead (s : StoreState n) (i : Fin n) (h : s.lock = some Tid.reader)
      (hp : s.rPos = i.val) :
      StoreStep n s
        { s with rCopy := Function.update s.rCopy i (some (s.slot i))
                 rPos := i.val + 1 }
  | rRelease (s : StoreState n) (h : s.lock = some Tid.reader)
      (hp : s.rPos = n) :
      StoreStep n s { s with lock := none }

/-- Reachability from the initial store state. -/
def StoreReachable (n : ℕ) (s : StoreState n) : Prop :=
  Relation.ReflTransGen (StoreStep n) (StoreState.init n) s

/-- The lock/slot/copy invariant of the store system: while the writer holds
the lock the slot is the current cycle up to `wPos` and a single older value
beyond it; while the writer does not hold the lock the slot is constant; and
while the reader holds the lock the slot is constant and every field copied
so far equals that constant. -/
def StoreInv {n : ℕ} (s : StoreState n) : Prop :=
  (s.lock = some Tid.writer →
    s.wPos ≤ n ∧ ∃ v, ∀ i : Fin n,
      s.slot i = if i.val < s.wPos then s.wCycle else v)
  ∧ (s.lock ≠ some Tid.writer → ∃ v, ∀ i : Fin n, s.slot i = v)
  ∧ (s.lock = some Tid.reader →
      ∃ v, (∀ i : Fin n, s.slot i = v)
        ∧ ∀ i : Fin n, i.val < s.rPos → s.rCopy i = some v)

/-- The error component of a fallible line read, as the manager records it. -/
def exceptError {ε α : Type} : Except ε α → Option ε
  | .error e => some e
  | .ok _ => none

deriving instance DecidableEq for Except

end AirGradient

namespace AirGradient

/-! ## Theorems -/

/-- The healthy flag of one watchdog tick, characterized: healthy exactly
when the network is up or not down beyond the wifi timeout, the snapshot age
is within the sensor timeout, and the scrape age is within the scrape
timeout. -/
lemma watchdogTick_healthy_iff (cfg : WatchdogConfig) (last_wifi_ok : ℕ)
    (inp : WdInput) :
    (watchdogTick cfg last_wifi_ok inp).2.1 = true ↔
      ((inp.link_up && inp.config_up) = true
          ∨ inp.now - last_wifi_ok ≤ cfg.wifi_timeout)
        ∧ inp.now - inp.sensor_last_updated ≤ cfg.sensor_timeout
        ∧ inp.now - inp.last_scrape ≤ cfg.metric_scrape_timeout := by
  simp only [watchdogTick, sensorsStale]
  by_cases hw : (inp.link_up && inp.config_up) = true
  · simp [hw]
  · simp [hw]
    omega

/-- C1: On every watchdog tick, the kick pulse is produced if and only if
all three health conditions hold (network link not down beyond the network
timeout, snapshot age within the sensor timeout, scrape age within the
scrape timeout); if any condition fails the tick's pin trace is empty (the
pulse is skipped entirely), and when all hold the kick output is driven
high, held for exactly the configured pulse duration, then driven low. -/
theorem watchdog_kick_pulse_iff_all_healthy (cfg : WatchdogConfig)
    (last_wifi_ok : ℕ) (inp : WdInput) :
    ((watchdogTick cfg last_wifi_ok inp).2.2
        = [PinEvent.setHigh, PinEvent.delayMs cfg.kick_duration_ms,
           PinEvent.setLow]
      ↔ ((inp.link_up && inp.config_up) = true
            ∨ inp.now - last_wifi_ok ≤ cfg.wifi_timeout)
          ∧ inp.now - inp.sensor_last_updated ≤ cfg.sensor_timeout
          ∧ inp.now - inp.last_scrape ≤ cfg.metric_scrape_timeout)
    ∧ ((watchdogTick cfg last_wifi_ok inp).2.1 = false →
        (watchdogTick cfg last_wifi_ok inp).2.2 = []) := by
  have hiff := watchdogTick_healthy_iff cfg last_wifi_ok inp
  have htrace : (watchdogTick cfg last_wifi_ok inp).2.2
      = if (watchdogTick cfg last_wifi_ok inp).2.1 = true
        then [PinEvent.setHigh, PinEvent.delayMs cfg.kick_duration_ms,
              PinEvent.setLow]
        else [] := rfl
  cases hh : (watchdogTick cfg last_wifi_ok inp).2.1 with
  | false =>
    rw [hh] at hiff htrace
    simp only [Bool.false_eq_true, if_false] at htrace
    refine ⟨?_, fun _ => htrace⟩
    rw [htrace]
    constructor
    · intro hc
      exact absurd hc (by simp)
    · intro hc
      exact absurd (hiff.mpr hc) (by simp)
  | true =>
    rw [hh] at hiff htrace
    simp only [if_true] at htrace
    refine ⟨?_, fun hfalse => by simp at hfalse⟩
    rw [htrace]
    simpa using hiff

/-- C1 witness: a fully healthy tick (link up, fresh snapshot, fresh scrape)
produces exactly the high–delay–low pulse. -/
theorem watchdog_kick_pulse_iff_all_healthy_witness :
    (watchdogTick ⟨300, 120, 900, 25⟩ 0
        ⟨true, true, 50, 40, 45⟩).2.2
      = [PinEvent.setHigh, PinEvent.delayMs 25, PinEvent.setLow] :=
  (watchdog_kick_pulse_iff_all_healthy ⟨300, 120, 900, 25⟩ 0
      ⟨true, true, 50, 40, 45⟩).1.mpr (by simp)

/-- C10: `read_all` stamps the snapshot's `last_updated` with the
cycle-completion time unconditionally — for every combination of line
outcomes, including a cycle where all three lines fail — so a watchdog tick
within the sensor timeout of the latest cycle never finds the snapshot
stale, regardless of whether any read ever succeeded. -/
theorem read_all_stamps_completion_time (pmsRes : Except PmsError PmsData)
    (sgpCall : Option ℚ → Option ℚ → Except Sgp41Error (ℤ × ℤ))
    (s8Res : Except S8Error ℕ) (sgpInitialized : Bool) (now : ℕ)
    (cfg : WatchdogConfig) (wdNow : ℕ)
    (h : wdNow - now ≤ cfg.sensor_timeout) :
    (read_all pmsRes sgpCall s8Res sgpInitialized now).last_updated = now
    ∧ sensorsStale cfg wdNow
        (read_all pmsRes sgpCall s8Res sgpInitialized now).last_updated
        = false := by
  refine ⟨rfl, ?_⟩
  have : (read_all pmsRes sgpCall s8Res sgpInitialized now).last_updated
      = now := rfl
  rw [this]
  simp [sensorsStale]
  omega

/-- C10 witness: a cycle where all three lines fail still stamps
`last_updated = 5`, and a watchdog tick at time 7 with sensor timeout 120
does not find the snapshot stale. -/
theorem read_all_stamps_completion_time_witness :
    (read_all (.error .Read) (fun _ _ => .error .I2cError)
        (.error .ReadError) false 5).last_updated = 5
    ∧ sensorsStale ⟨300, 120, 900, 25⟩ 7
        (read_all (.error .Read) (fun _ _ => .error .I2cError)
            (.error .ReadError) false 5).last_updated = false :=
  read_all_stamps_completion_time (.error .Read)
    (fun _ _ => .error .I2cError) (.error .ReadError) false 5
    ⟨300, 120, 900, 25⟩ 7 (by norm_num)

/-- Clamping is monotone. -/
lemma clampQ_mono {x y : ℚ} (lo hi : ℚ) (h : x ≤ y) :
    clampQ x lo hi ≤ clampQ y lo hi :=
  max_le_max le_rfl (min_le_min h le_rfl)

/-- C5 counterexample: the fixed humidity default tick `0x8000` is not the
truncated conversion of 50 % RH — that conversion is
`⌊50 × 65535 / 100⌋ = ⌊32767.5⌋ = 32767`, one less than the default. -/
theorem default_rh_ticks_ne_conversion_at_50 :
    DEFAULT_RH_TICKS ≠ humidity_to_ticks 50
    ∧ humidity_to_ticks 50 = 32767 ∧ DEFAULT_RH_TICKS = 32768 := by
  have h : humidity_to_ticks 50 = 32767 := by
    norm_num [humidity_to_ticks, clampQ]
    rfl
  exact ⟨by rw [h]; decide, h, rfl⟩

/-- C5 (amended): both tick conversions are monotone, clamp out-of-range
inputs to the boundary before scaling, and the temperature default tick
equals the conversion applied to 25 °C; the humidity default tick `0x8000`
exceeds the truncated conversion applied to 50 % RH by exactly one. -/
theorem tick_conversion_properties :
    (∀ h₁ h₂ : ℚ, h₁ ≤ h₂ → humidity_to_ticks h₁ ≤ humidity_to_ticks h₂)
    ∧ (∀ t₁ t₂ : ℚ, t₁ ≤ t₂ →
        temperature_to_ticks t₁ ≤ temperature_to_ticks t₂)
    ∧ (∀ h : ℚ, 100 ≤ h → humidity_to_ticks h = humidity_to_ticks 100)
    ∧ (∀ h : ℚ, h ≤ 0 → humidity_to_ticks h = humidity_to_ticks 0)
    ∧ (∀ t : ℚ, 130 ≤ t → temperature_to_ticks t = temperature_to_ticks 130)
    ∧ (∀ t : ℚ, t ≤ -45 →
        temperature_to_ticks t = temperature_to_ticks (-45))
    ∧ temperature_to_ticks 25 = DEFAULT_TEMP_TICKS
    ∧ humidity_to_ticks 50 + 1 = DEFAULT_RH_TICKS := by
  refine ⟨?_, ?_, ?_, ?_, ?_, ?_, ?_, ?_⟩
  · intro h₁ h₂ h
    apply Int.toNat_le_toNat
    apply Int.floor_le_floor
    have := clampQ_mono (x := h₁) (y := h₂) 0 100 h
    have hm : clampQ h₁ 0 100 * 65535 ≤ clampQ h₂ 0 100 * 65535 := by
      nlinarith
    linarith
  · intro t₁ t₂ h
    apply Int.toNat_le_toNat
    apply Int.floor_le_floor
    have := clampQ_mono (x := t₁) (y := t₂) (-45) 130 h
    have hm : (clampQ t₁ (-45) 130 + 45) * 65535
        ≤ (clampQ t₂ (-45) 130 + 45) * 65535 := by
      nlinarith
    linarith
  · intro h hh
    unfold humidity_to_ticks
    have : clampQ h 0 100 = clampQ 100 0 100 := by
      unfold clampQ
      rw [min_eq_right hh]
      norm_num
    rw [this]
  · intro h hh
    unfold humidity_to_ticks
    have : clampQ h 0 100 = clampQ 0 0 100 := by
      unfold clampQ
      have h100 : min h 100 ≤ 0 := le_trans (min_le_left h 100) hh
      rw [max_eq_left h100]
      norm_num
    rw [this]
  · intro t ht
    unfold temperature_to_ticks
    have : clampQ t (-45) 130 = clampQ 130 (-45) 130 := by
      unfold clampQ
      rw [min_eq_right ht]
      norm_num
    rw [this]
  · intro t ht
    unfold temperature_to_ticks
    have : clampQ t (-45) 130 = clampQ (-45) (-45) 130 := by
      unfold clampQ
      have h45 : min t 130 ≤ -45 := le_trans (min_le_left t 130) ht
      rw [max_eq_left h45]
      norm_num
    rw [this]
  · norm_num [temperature_to_ticks, clampQ]
    rfl
  · have h : humidity_to_ticks 50 = 32767 := by
      norm_num [humidity_to_ticks, clampQ]
      rfl
    rw [h]
    rfl

/-- C5 witness: the amended theorem applied at concrete inputs — 30 ≤ 40
(%RH), 10 ≤ 20 (°C), and the spec's clamp example 150 % RH ↦ 100 % RH. -/
theorem tick_conversion_properties_witness :
    humidity_to_ticks 30 ≤ humidity_to_ticks 40
    ∧ temperature_to_ticks 10 ≤ temperature_to_ticks 20
    ∧ humidity_to_ticks 150 = humidity_to_ticks 100 :=
  ⟨tick_conversion_properties.1 30 40 (by norm_num),
   tick_conversion_properties.2.1 10 20 (by norm_num),
   tick_conversion_properties.2.2.1 150 (by norm_num)⟩

/-- C4: the manager always passes `Some(data.humidity)`/`Some(data.temp)` to
the gas measurement (last conjunct), so in a cycle whose PM read failed the
gas line is compensated with the snapshot defaults 0 % RH / 0 °C — ticks
`(0, 16851)` — and not with the driver's `None` defaults equivalent to
50 % RH / 25 °C — ticks `(0x8000, 0x6666)`: the `None` fallback of
`measure_internal` is unreachable from `read_all`. -/
theorem sgp_compensation_defaults_bypassed :
    (∀ e : PmsError, sgpInputs (.error e) = (some 0, some 0))
    ∧ (∀ p : PmsData, sgpInputs (.ok p) = (some p.humidity, some p.temp))
    ∧ compTicks (some 0) (some 0) = (0, 16851)
    ∧ compTicks none none = (DEFAULT_RH_TICKS, DEFAULT_TEMP_TICKS)
    ∧ compTicks (some 0) (some 0) ≠ compTicks none none
    ∧ ∀ (pmsRes : Except PmsError PmsData)
        (sgpCall : Option ℚ → Option ℚ → Except Sgp41Error (ℤ × ℤ))
        (s8Res : Except S8Error ℕ) (ini : Bool) (now : ℕ),
        read_all pmsRes sgpCall s8Res ini now
          = read_all pmsRes
              (fun _ _ => sgpCall (sgpInputs pmsRes).1 (sgpInputs pmsRes).2)
              s8Res ini now := by
  have h0 : humidity_to_ticks 0 = 0 := by
    norm_num [humidity_to_ticks, clampQ]
  have t0 : temperature_to_ticks 0 = 16851 := by
    norm_num [temperature_to_ticks, clampQ]
    rfl
  have hc : compTicks (some 0) (some 0) = (0, 16851) := by
    simp [compTicks, h0, t0]
  refine ⟨fun e => rfl, fun p => rfl, hc, rfl, ?_, ?_⟩
  · rw [hc]
    decide
  · intro pmsRes sgpCall s8Res ini now
    cases pmsRes <;> rfl

/-- C2: in a cycle where the CO2 read fails while the PM and gas reads
succeed, the snapshot is exactly: PM fields, temperature and humidity from
the PM read, VOC/NOx from the gas read, `co2` at its default 0, and an error
record with only the CO2 entry set.  In general the error record is present
if and only if at least one line failed, and carries exactly the failed
lines' errors — at most one per line. -/
theorem read_all_partial_failure (pmsRes : Except PmsError PmsData)
    (sgpRes : Except Sgp41Error (ℤ × ℤ)) (s8Res : Except S8Error ℕ)
    (ini : Bool) (now : ℕ) :
    (∀ p v nx e, pmsRes = .ok p → sgpRes = .ok (v, nx) → s8Res = .error e →
      read_all pmsRes (fun _ _ => sgpRes) s8Res ini now
        = { pm1 := p.pm1_ae, pm25 := p.pm25_ae, pm10 := p.pm10_ae
            pm03_count := p.pm03_count, pm05_count := p.pm05_count
            pm10_count := p.pm10_count, pm25_count := p.pm25_count
            co2 := 0, voc := v, nox := nx
            temp := p.temp, humidity := p.humidity
            initialized := ini, errors := some ⟨none, none, some e⟩
            last_updated := now })
    ∧ (read_all pmsRes (fun _ _ => sgpRes) s8Res ini now).errors
        = (if exceptError pmsRes = none ∧ exceptError sgpRes = none
              ∧ exceptError s8Res = none
           then none
           else some ⟨exceptError pmsRes, exceptError sgpRes,
                      exceptError s8Res⟩) := by
  constructor
  · intro p v nx e hp hs h8
    subst hp hs h8
    rfl
  · rcases pmsRes with e | p <;> rcases sgpRes with e' | ⟨v, nx⟩ <;>
      rcases s8Res with e'' | c <;>
      simp [read_all, exceptError, SensorData.default]

/-- C2 witness: a concrete cycle with PM and gas succeeding and CO2 failing
with a read error yields exactly the claimed snapshot. -/
theorem read_all_partial_failure_witness :
    read_all (.ok ⟨1, 2, 3, 4, 5, 6, 7, 43/2, 226/5⟩)
        (fun _ _ => .ok (100, 1)) (.error .ReadError) true 9
      = { pm1 := 1, pm25 := 2, pm10 := 3
          pm03_count := 4, pm05_count := 5, pm10_count := 6, pm25_count := 7
          co2 := 0, voc := 100, nox := 1, temp := 43/2, humidity := 226/5
          initialized := true, errors := some ⟨none, none, some .ReadError⟩
          last_updated := 9 } := by
  simpa using
    (read_all_partial_failure (.ok ⟨1, 2, 3, 4, 5, 6, 7, 43/2, 226/5⟩)
        (.ok (100, 1)) (.error .ReadError) true 9).1
      ⟨1, 2, 3, 4, 5, 6, 7, 43/2, 226/5⟩ 100 1 .ReadError rfl rfl rfl

/-- C8: whenever the gas driver is not in its ready (initialized) state, a
`measure` call returns the distinct `NotInitialized` caller-misuse error,
performs no I2C transaction at all (empty bus trace), and leaves the driver
state unchanged — for every compensation input and every bus oracle. -/
theorem sgp_measure_rejected_when_not_ready (st : Sgp41)
    (h : st.is_initialized = false) (humidity temp : Option ℚ)
    (orc : I2cOracle) :
    st.measure humidity temp orc
      = (.error .NotInitialized, [], st) := by
  have h' : st.initialized = false := h
  simp [Sgp41.measure, h']

/-- C8 witness: an uninitialized driver rejects a measurement without
touching the bus. -/
theorem sgp_measure_rejected_when_not_ready_witness :
    Sgp41.measure ⟨false⟩ none none ⟨true, true, []⟩
      = (.error .NotInitialized, [], (⟨false⟩ : Sgp41)) :=
  sgp_measure_rejected_when_not_ready ⟨false⟩ rfl none none ⟨true, true, []⟩

/-- Composing a byte into the high half of a 16-bit word by shift-and-or is
plain arithmetic when the low half is a byte. -/
lemma shiftLeft8_lor_eq_add (a b : ℕ) (hb : b < 256) :
    a <<< 8 ||| b = 256 * a + b := by
  apply Nat.eq_of_testBit_eq
  intro i
  rw [Nat.testBit_lor, Nat.testBit_shiftLeft]
  have h256 : (256 : ℕ) = 2 ^ 8 := rfl
  rw [h256, Nat.testBit_mul_pow_two_add a (by simpa using hb) i]
  by_cases h : i < 8
  · simp [h, Nat.not_le.mpr h]
  · have hb' : b < 2 ^ i :=
      lt_of_lt_of_le hb
        (Nat.pow_le_pow_right (by norm_num : 1 ≤ 2) (Nat.le_of_not_lt h))
    simp [h, Nat.le_of_not_lt h, Nat.testBit_lt_two_pow hb']

/-- C6: for every 7-byte CO2 response, the driver returns the distinct
invalid-header error iff one of the first three bytes differs from the
expected address / function-code / byte-count constants; with a good
header it returns the distinct checksum error iff the CRC-16 over the
first five bytes differs from the received CRC reconstructed from the
trailing two bytes in low-byte-first wire order; and otherwise it returns
the CO2 value decoded big-endian from the two data bytes. -/
theorem s8_response_validation (b0 b1 b2 b3 b4 b5 b6 : ℕ)
    (h4 : b4 < 256) (h5 : b5 < 256) :
    (getCo2Resp [b0, b1, b2, b3, b4, b5, b6] = .error .InvalidHeader
      ↔ ¬(b0 = MODBUS_ADDR_ANY ∧ b1 = MODBUS_FUNC_READ_INPUT
          ∧ b2 = RESPONSE_BYTE_COUNT))
    ∧ (b0 = MODBUS_ADDR_ANY → b1 = MODBUS_FUNC_READ_INPUT →
        b2 = RESPONSE_BYTE_COUNT →
        (getCo2Resp [b0, b1, b2, b3, b4, b5, b6] = .error .ChecksumError
          ↔ crc16_modbus [b0, b1, b2, b3, b4] ≠ 256 * b6 + b5))
    ∧ (b0 = MODBUS_ADDR_ANY → b1 = MODBUS_FUNC_READ_INPUT →
        b2 = RESPONSE_BYTE_COUNT →
        crc16_modbus [b0, b1, b2, b3, b4] = 256 * b6 + b5 →
        getCo2Resp [b0, b1, b2, b3, b4, b5, b6] = .ok (256 * b3 + b4)) := by
  have hco2 : b3 <<< 8 ||| b4 = 256 * b3 + b4 := shiftLeft8_lor_eq_add b3 b4 h4
  have hcrc : b6 <<< 8 ||| b5 = 256 * b6 + b5 := shiftLeft8_lor_eq_add b6 b5 h5
  simp only [getCo2Resp, validate_response, List.getD_cons_zero,
    List.getD_cons_succ, List.take_succ_cons, List.take_zero, hco2, hcrc]
  by_cases hh : (b0 ≠ MODBUS_ADDR_ANY ∨ b1 ≠ MODBUS_FUNC_READ_INPUT
      ∨ b2 ≠ RESPONSE_BYTE_COUNT)
  · rw [if_pos hh]
    have hh' : ¬(b0 = MODBUS_ADDR_ANY ∧ b1 = MODBUS_FUNC_READ_INPUT
        ∧ b2 = RESPONSE_BYTE_COUNT) := by tauto
    exact ⟨⟨fun _ => hh', fun _ => rfl⟩,
      fun hh0 hh1 hh2 => absurd ⟨hh0, hh1, hh2⟩ hh',
      fun hh0 hh1 hh2 _ => absurd ⟨hh0, hh1, hh2⟩ hh'⟩
  · rw [if_neg hh]
    push_neg at hh
    by_cases hc : (crc16_modbus [b0, b1, b2, b3, b4] = 256 * b6 + b5)
    · rw [if_neg (not_not_intro hc)]
      exact ⟨by simp [hh], fun _ _ _ => by simp [hc], fun _ _ _ _ => rfl⟩
    · rw [if_pos hc]
      exact ⟨by simp [hh], fun _ _ _ => by simp [hc],
        fun _ _ _ hcc => absurd hcc hc⟩

set_option maxRecDepth 8000 in
/-- C6 witness: a concrete well-formed response (CO2 = 600, correct CRC
`0xBEAD` sent low byte first) decodes to 600. -/
theorem s8_response_validation_witness :
    getCo2Resp [0xFE, 0x04, 0x02, 0x02, 0x58, 173, 190] = .ok (256 * 2 + 88) :=
  (s8_response_validation 0xFE 0x04 0x02 0x02 0x58 173 190
      (by norm_num) (by norm_num)).2.2 rfl rfl rfl (by decide)

/-- The first frame attempt succeeding short-circuits the retry loop. -/
lemma readLoop_succ_ok (n : ℕ) (s : List ℕ) (d : PmsData) (s' : List ℕ)
    (h : try_read_frame s = (.ok d, s')) :
    readLoop (n + 1) s = (.ok d, s') := by
  simp only [readLoop, h]

set_option maxRecDepth 100000 in
/-- C3 counterexample: a failed frame attempt does not restart from the byte
immediately following the byte at which synchronization began.  On the
stream `[0x42, 0x00]` the attempt begins at the `0x42`, fails on the second
sync byte, and leaves the stream empty — not at the tail `[0x00]`.  And on a
stream consisting of a stray `0x42` followed by a complete valid frame
(sync, declared length 28, all-zero payload, checksum `0x00AB`), a read from
the tail (where the claim would resynchronize) succeeds, yet the driver
itself — having consumed two bytes in the first attempt — never sees that
frame and exhausts its attempt budget. -/
theorem pms_resync_not_from_next_byte :
    (try_read_frame [0x42, 0x00]).1 = .error .Read
    ∧ (try_read_frame [0x42, 0x00]).2 = []
    ∧ (try_read_frame [0x42, 0x00]).2 ≠ List.tail [0x42, 0x00]
    ∧ (Pms5003t.read (0x42 :: 0x4D :: 0x00 :: 0x1C ::
        [0, 0, 0, 0, 0, 0, 0, 0, 0, 0, 0, 0, 0, 0, 0, 0, 0, 0, 0, 0, 0, 0, 0, 0, 0, 0, 0x00, 0xAB])).1
      = .ok (parse_frame [0, 0, 0, 0, 0, 0, 0, 0, 0, 0, 0, 0, 0, 0, 0, 0, 0, 0, 0, 0, 0, 0, 0, 0, 0, 0, 0x00, 0xAB])
    ∧ (Pms5003t.read (0x42 :: 0x42 :: 0x4D :: 0x00 :: 0x1C ::
        [0, 0, 0, 0, 0, 0, 0, 0, 0, 0, 0, 0, 0, 0, 0, 0, 0, 0, 0, 0, 0, 0, 0, 0, 0, 0, 0x00, 0xAB])).1
      = .error .MaxAttemptsExceeded := by
  have htry : try_read_frame (0x42 :: 0x4D :: 0x00 :: 0x1C ::
      [0, 0, 0, 0, 0, 0, 0, 0, 0, 0, 0, 0, 0, 0, 0, 0, 0, 0, 0, 0, 0, 0, 0, 0, 0, 0, 0x00, 0xAB])
      = (.ok (parse_frame [0, 0, 0, 0, 0, 0, 0, 0, 0, 0, 0, 0, 0, 0, 0, 0, 0, 0, 0, 0, 0, 0, 0, 0, 0, 0, 0x00, 0xAB]), []) := by
    have h1 : ¬(([0, 0, 0, 0, 0, 0, 0, 0, 0, 0, 0, 0, 0, 0, 0, 0, 0, 0, 0, 0, 0, 0, 0, 0, 0, 0, 0x00, 0xAB] : List ℕ).length < 28) := by
      decide
    have h2 : ([0, 0, 0, 0, 0, 0, 0, 0, 0, 0, 0, 0, 0, 0, 0, 0, 0, 0, 0, 0, 0, 0, 0, 0, 0, 0, 0x00, 0xAB] : List ℕ).take 28
        = [0, 0, 0, 0, 0, 0, 0, 0, 0, 0, 0, 0, 0, 0, 0, 0, 0, 0, 0, 0, 0, 0, 0, 0, 0, 0, 0x00, 0xAB] := by decide
    have h3 : ([0, 0, 0, 0, 0, 0, 0, 0, 0, 0, 0, 0, 0, 0, 0, 0, 0, 0, 0, 0, 0, 0, 0, 0, 0, 0, 0x00, 0xAB] : List ℕ).drop 28 = [] := by
      decide
    have h4 : verify_checksum [0x00, 0x1C] [0, 0, 0, 0, 0, 0, 0, 0, 0, 0, 0, 0, 0, 0, 0, 0, 0, 0, 0, 0, 0, 0, 0, 0, 0, 0, 0x00, 0xAB]
        = true := by decide
    simp [try_read_frame, u16FromBe, FRAME_START_1, FRAME_START_2,
      EXPECTED_FRAME_LEN, h1, h2, h3, h4]
  have hok : (Pms5003t.read (0x42 :: 0x4D :: 0x00 :: 0x1C ::
      [0, 0, 0, 0, 0, 0, 0, 0, 0, 0, 0, 0, 0, 0, 0, 0, 0, 0, 0, 0, 0, 0, 0, 0, 0, 0, 0x00, 0xAB])).1
      = .ok (parse_frame [0, 0, 0, 0, 0, 0, 0, 0, 0, 0, 0, 0, 0, 0, 0, 0, 0, 0, 0, 0, 0, 0, 0, 0, 0, 0, 0x00, 0xAB]) := by
    show (readLoop MAX_SYNC_ATTEMPTS _).1 = _
    rw [show MAX_SYNC_ATTEMPTS = 2047 + 1 from rfl]
    rw [readLoop_succ_ok 2047 _ _ _ htry]
  refine ⟨by decide, by decide, by decide, hok, by decide⟩

/-- C3 (amended): after a per-attempt failure, resynchronization restarts
from the byte immediately following the last byte the failed attempt
consumed — one byte past the failure point, not one byte past where
synchronization began.  A first-sync-byte mismatch consumes 1 byte, a
second-sync-byte mismatch 2, a declared-length mismatch 4, and a checksum
mismatch the whole 32-byte frame; the retry loop continues from exactly the
failed attempt's remaining stream. -/
theorem try_read_frame_consumption :
    (∀ b s, b ≠ FRAME_START_1 →
        try_read_frame (b :: s) = (.error .Read, s))
    ∧ (∀ b s, b ≠ FRAME_START_2 →
        try_read_frame (FRAME_START_1 :: b :: s) = (.error .Read, s))
    ∧ (∀ l1 l2 s, u16FromBe l1 l2 ≠ EXPECTED_FRAME_LEN →
        try_read_frame (FRAME_START_1 :: FRAME_START_2 :: l1 :: l2 :: s)
          = (.error .FrameLen, s))
    ∧ (∀ l1 l2 s, u16FromBe l1 l2 = EXPECTED_FRAME_LEN → 28 ≤ s.length →
        verify_checksum [l1, l2] (s.take 28) = false →
        try_read_frame (FRAME_START_1 :: FRAME_START_2 :: l1 :: l2 :: s)
          = (.error .Checksum, s.drop 28))
    ∧ (∀ n s e s', try_read_frame s = (.error e, s') →
        readLoop (n + 1) s = readLoop n s') := by
  refine ⟨?_, ?_, ?_, ?_, ?_⟩
  · intro b s h
    simp [try_read_frame, h]
  · intro b s h
    simp [try_read_frame, h]
  · intro l1 l2 s h
    simp [try_read_frame, h]
  · intro l1 l2 s h1 h2 h3
    simp [try_read_frame, h1, Nat.not_lt.mpr h2, h3]
  · intro n s e s' h
    simp only [readLoop, h]

/-- C3 witness: the amended consumption laws applied at concrete inputs —
a wrong first sync byte consumes one byte, and the loop then retries from
there. -/
theorem try_read_frame_consumption_witness :
    try_read_frame [0x00, 0x07] = (.error .Read, [0x07])
    ∧ readLoop 5 [0x00, 0x07] = readLoop 4 [0x07] :=
  ⟨try_read_frame_consumption.1 0x00 [0x07] (by decide),
   try_read_frame_consumption.2.2.2.2 4 [0x00, 0x07] .Read [0x07]
     (try_read_frame_consumption.1 0x00 [0x07] (by decide))⟩

/-- C7: for every well-formed PM frame — correct sync bytes, declared
big-endian length 28, and trailing big-endian checksum equal to the wrapped
sum of sync, length and payload bytes — the driver's read consumes exactly
the frame and returns the parsed record, whose fields are the big-endian
`u16` values at the fixed payload offsets, with temperature and humidity
equal to their raw fields divided by 10. -/
theorem pms_read_wellformed (l1 l2 : ℕ) (payload rest : List ℕ)
    (hlen : payload.length = 28)
    (hdecl : u16FromBe l1 l2 = EXPECTED_FRAME_LEN)
    (hsum : verify_checksum [l1, l2] payload = true) :
    Pms5003t.read
        (FRAME_START_1 :: FRAME_START_2 :: l1 :: l2 :: (payload ++ rest))
      = (.ok (parse_frame payload), rest)
    ∧ parse_frame payload
      = { pm1_ae := u16FromBe (payload.getD 6 0) (payload.getD 7 0)
          pm25_ae := u16FromBe (payload.getD 8 0) (payload.getD 9 0)
          pm10_ae := u16FromBe (payload.getD 10 0) (payload.getD 11 0)
          pm03_count := u16FromBe (payload.getD 12 0) (payload.getD 13 0)
          pm05_count := u16FromBe (payload.getD 14 0) (payload.getD 15 0)
          pm10_count := u16FromBe (payload.getD 16 0) (payload.getD 17 0)
          pm25_count := u16FromBe (payload.getD 18 0) (payload.getD 19 0)
          temp := (i16FromBe (payload.getD 20 0) (payload.getD 21 0) : ℚ) / 10
          humidity :=
            (u16FromBe (payload.getD 22 0) (payload.getD 23 0) : ℚ) / 10 } := by
  have htake : (payload ++ rest).take 28 = payload := by
    rw [← hlen]
    exact List.take_left _ _
  have hdrop : (payload ++ rest).drop 28 = rest := by
    rw [← hlen]
    exact List.drop_left _ _
  have hlen' : ¬((payload ++ rest).length < 28) := by
    rw [List.length_append, hlen]
    omega
  have htry : try_read_frame
      (FRAME_START_1 :: FRAME_START_2 :: l1 :: l2 :: (payload ++ rest))
      = (.ok (parse_frame payload), rest) := by
    simp only [try_read_frame, hdecl, htake, hdrop, hsum, ne_eq,
      not_true_eq_false, if_false, Bool.not_true, if_neg hlen']
    simp
  refine ⟨?_, rfl⟩
  have h2048 : MAX_SYNC_ATTEMPTS = 2047 + 1 := rfl
  show readLoop MAX_SYNC_ATTEMPTS _ = _
  rw [h2048]
  exact readLoop_succ_ok 2047 _ _ _ htry

/-- C7 witness: a concrete well-formed frame (zero payload, checksum
`0x00AB`) followed by a stray trailing byte parses to the all-zero record
and leaves the trailing byte unconsumed. -/
theorem pms_read_wellformed_witness :
    Pms5003t.read
        (FRAME_START_1 :: FRAME_START_2 :: 0x00 :: 0x1C ::
          ((List.replicate 26 0 ++ [0x00, 0xAB]) ++ [5]))
      = (.ok (parse_frame (List.replicate 26 0 ++ [0x00, 0xAB])), [5]) :=
  (pms_read_wellformed 0x00 0x1C (List.replicate 26 0 ++ [0x00, 0xAB]) [5]
      (by decide) (by decide) (by decide)).1

/-- The store invariant holds initially. -/
lemma store_inv_init (n : ℕ) : StoreInv (StoreState.init n) := by
  refine ⟨fun h => by simp [StoreState.init] at h, fun _ => ⟨0, fun i => rfl⟩,
    fun h => by simp [StoreState.init] at h⟩

lemma store_inv_step {n : ℕ} {s s' : StoreState n} (hinv : StoreInv s)
    (hstep : StoreStep n s s') : StoreInv s' := by
  obtain ⟨inv1, inv2, inv3⟩ := hinv
  cases hstep with
  | wAcquire h =>
    obtain ⟨v, hv⟩ := inv2 (by rw [h]; simp)
    refine ⟨fun _ => ?_, fun hc => ?_, fun hc => ?_⟩
    · exact ⟨Nat.zero_le n, v, fun i => by simpa using hv i⟩
    · exact absurd rfl hc
    · simp at hc
  | wWrite i h hp =>
    obtain ⟨-, v, hv⟩ := inv1 h
    refine ⟨fun _ => ?_, fun hc => ?_, fun hc => ?_⟩
    · dsimp only
      refine ⟨by omega, v, fun j => ?_⟩
      by_cases hij : j = i
      · subst hij
        simp
      · have hne : j.val ≠ i.val := fun hc => hij (Fin.ext hc)
        rw [Function.update_noteq hij, hv j, hp]
        by_cases hlt : j.val < i.val
        · rw [if_pos hlt, if_pos (by omega)]
        · rw [if_neg hlt, if_neg (by omega)]
    · dsimp only at hc
      exact absurd h hc
    · dsimp only at hc
      rw [h] at hc
      simp at hc
  | wRelease h hp =>
    obtain ⟨-, v, hv⟩ := inv1 h
    refine ⟨fun hc => by simp at hc, fun _ => ?_, fun hc => by simp at hc⟩
    refine ⟨s.wCycle, fun i => ?_⟩
    dsimp only
    rw [hv i, hp, if_pos i.isLt]
  | rAcquire h =>
    obtain ⟨v, hv⟩ := inv2 (by rw [h]; simp)
    refine ⟨fun hc => by simp at hc, fun _ => ⟨v, hv⟩,
      fun _ => ⟨v, hv, fun i hi => ?_⟩⟩
    simp at hi
  | rRead i h hp =>
    obtain ⟨v, hv, hc⟩ := inv3 h
    refine ⟨fun hc' => ?_, fun _ => ⟨v, hv⟩,
      fun _ => ⟨v, hv, fun j hj => ?_⟩⟩
    · dsimp only at hc'
      rw [h] at hc'
      simp at hc'
    · dsimp only at hj ⊢
      by_cases hij : j = i
      · subst hij
        simp [hv j]
      · have hne : j.val ≠ i.val := fun hcc => hij (Fin.ext hcc)
        rw [Function.update_noteq hij]
        exact hc j (by omega)
  | rRelease h hp =>
    obtain ⟨v, hv, -⟩ := inv3 h
    refine ⟨fun hc => by simp at hc, fun _ => ⟨v, hv⟩, fun hc => by simp at hc⟩

lemma store_inv_reachable {n : ℕ} {s : StoreState n}
    (h : StoreReachable n s) : StoreInv s := by
  induction h with
  | refl => exact store_inv_init n
  | tail hr hstep ih => exact store_inv_step ih hstep

/-- C9: in every reachable state of the store system in which a reader has
finished its lock-protected copy-out, the copied snapshot is uniform: every
field carries the same write-cycle stamp.  A reader racing the writer
therefore observes either the entirely-previous or the entirely-new
snapshot, never a mixture of fields from two cycles, because the writer's
whole-value replacement happens under the store's mutual-exclusion lock. -/
theorem snapshot_reader_consistent {n : ℕ} {s : StoreState n}
    (h : StoreReachable n s) (hl : s.lock = some Tid.reader)
    (hp : s.rPos = n) :
    ∃ v, ∀ i : Fin n, s.rCopy i = some v := by
  obtain ⟨-, -, inv3⟩ := store_inv_reachable h
  obtain ⟨v, -, hc⟩ := inv3 hl
  exact ⟨v, fun i => hc i (by rw [hp]; exact i.isLt)⟩


/-- C9 witness: a concrete interleaving with two fields — the reader
acquires the lock, copies both fields, and finishes — reaches a state whose
copied snapshot is uniform. -/
theorem snapshot_reader_consistent_witness :
    ∃ s : StoreState 2, StoreReachable 2 s ∧ s.lock = some Tid.reader
      ∧ s.rPos = 2 ∧ ∃ v, ∀ i : Fin 2, s.rCopy i = some v := by
  have h1 : StoreStep 2 (StoreState.init 2)
      (⟨some Tid.reader, fun _ => 0, 1, 0, 0, fun _ => none⟩ : StoreState 2) :=
    StoreStep.rAcquire _ rfl
  have h2 : StoreStep 2
      (⟨some Tid.reader, fun _ => 0, 1, 0, 0, fun _ => none⟩ : StoreState 2)
      (⟨some Tid.reader, fun _ => 0, 1, 0, 1,
        Function.update (fun _ => none) (⟨0, by norm_num⟩ : Fin 2)
          (some 0)⟩ : StoreState 2) :=
    StoreStep.rRead _ ⟨0, by norm_num⟩ rfl rfl
  have h3 : StoreStep 2
      (⟨some Tid.reader, fun _ => 0, 1, 0, 1,
        Function.update (fun _ => none) (⟨0, by norm_num⟩ : Fin 2)
          (some 0)⟩ : StoreState 2)
      (⟨some Tid.reader, fun _ => 0, 1, 0, 2,
        Function.update (Function.update (fun _ => none)
          (⟨0, by norm_num⟩ : Fin 2) (some 0)) (⟨1, by norm_num⟩ : Fin 2)
          (some 0)⟩ : StoreState 2) :=
    StoreStep.rRead _ ⟨1, by norm_num⟩ rfl rfl
  have hr : StoreReachable 2
      (⟨some Tid.reader, fun _ => 0, 1, 0, 2,
        Function.update (Function.update (fun _ => none)
          (⟨0, by norm_num⟩ : Fin 2) (some 0)) (⟨1, by norm_num⟩ : Fin 2)
          (some 0)⟩ : StoreState 2) :=
    Relation.ReflTransGen.tail
      (Relation.ReflTransGen.tail
        (Relation.ReflTransGen.tail Relation.ReflTransGen.refl h1) h2) h3
  exact ⟨_, hr, rfl, rfl, snapshot_reader_consistent hr rfl rfl⟩

end AirGradient
